import Mathlib

/-!
Verification of the dashboard's command-to-form adapter and execution engine
(`streamlit_app.py`) against its natural-language specification.

The embedding models the pure decision logic of the dashboard:

* `PyVal` is the universe of widget values flowing through the form
  (strings, integers, booleans, and Python's `None`); `pyTruthy`, `pyStr`
  and `isEmptyVal` mirror Python truthiness, `str(...)` and the test
  `val in ("", None)` used by the source.
* `PyAction` is the shape of an `argparse` action as the source consumes it
  (`dest`, `option_strings`, `required`, store-true kind, `help`, `choices`,
  `type`, `default`).
* `widget_for_action` mirrors the widget-synthesis function of the same name
  (widget keys, which are pure UI bookkeeping, are omitted).
* `build_argv` mirrors the invocation builder of the same name; the loop body
  is factored out as `argvSegment`.
* `missing_fields`, `opt_keys`, `injectLoop`/`inject` and `run_handler`
  mirror the module-level Run-button handler (required-field gate, MySQL
  flag injection, argv assembly).
* `run_module` mirrors the execution engine: the module's behaviour is a
  function from the `sys.argv` it observes to the captured stdout/stderr and
  one of three outcomes (normal return, `SystemExit`, any other exception);
  the engine catches only `SystemExit` and restores `sys.argv` in `finally`.
* `render_tabs` mirrors the module-level tab loop, which imports each script
  inside its tab with no exception handling around the import.

Definitions named `specSegment`, `credPairs`, `inject_spec` and `credLike`
are spec-side counterparts written from the specification's words, used to
compare the source behaviour against the specified one.
-/

namespace AliReview

/-- Values a widget can hold: Python strings, ints, booleans and `None`.
Floats are not needed by any property under study. -/
inductive PyVal where
  | str (s : String)
  | int (n : Int)
  | bool (b : Bool)
  | pynone
deriving DecidableEq

/-- Python truthiness of a widget value (`if val:`). -/
def pyTruthy : PyVal → Bool
  | .str s => !(s == "")
  | .int n => !(n == 0)
  | .bool b => b
  | .pynone => false

/-- Python `str(val)` for the values under study. -/
def pyStr : PyVal → String
  | .str s => s
  | .int n => toString n
  | .bool b => if b then "True" else "False"
  | .pynone => "None"

/-- The source's emptiness test `val in ("", None)` from `build_argv`
(line 144): only the empty string and `None` count as empty; in Python
`0 == ""` and `0 == None` are both false, so a zero is not empty. -/
def isEmptyVal (v : PyVal) : Bool :=
  v == PyVal.str "" || v == PyVal.pynone

/-- Python truthiness of `widget_vals.get(dest)` (absent key gives `None`,
which is falsy). -/
def truthyOpt : Option PyVal → Bool
  | some v => pyTruthy v
  | none => false

/-- The `type=` attribute of an argparse action, as the source consumes it
(`typ = action.type or str`, line 99). -/
inductive PyType where
  | tstr
  | tint
  | tfloat
deriving DecidableEq

/-- The `default=` attribute of an argparse action: either
`argparse.SUPPRESS` or a value (argparse's default default is `None`). -/
inductive PyDefault where
  | suppress
  | val (v : PyVal)
deriving DecidableEq

/-- An argparse `Action` as consumed by the dashboard: destination name,
option strings, required flag, whether it is a `_StoreTrueAction`, help
text, choices, type and default. -/
structure PyAction where
  dest : String
  option_strings : List String
  required : Bool
  isStoreTrue : Bool
  help : Option String
  choices : Option (List String)
  type : Option PyType
  default : PyDefault
deriving DecidableEq

/-- The step of a numeric input: `1` for int, `0.1` for float (line 102). -/
inductive NumStep where
  | one
  | tenth
deriving DecidableEq

/-- A rendered Streamlit widget. `textInput` carries a `masked` flag: the
source calls `st.text_input(label, value=default, key=key)` with no
`type="password"` argument, so the fields it produces are unmasked. -/
inductive Widget where
  | checkbox (label : String) (value : Bool)
  | selectbox (label : String) (options : List String)
  | numberInput (label : String) (value : PyVal) (step : NumStep) (format : String)
  | textInput (label : String) (value : PyVal) (masked : Bool)
deriving DecidableEq

/-- Whether a widget is a masked (no-echo) text field. -/
def isMasked : Widget → Bool
  | .textInput _ _ m => m
  | _ => false

/-- The required-marker condition from `widget_for_action` (lines 83-86):
`(action.option_strings and action.required) or not action.option_strings`. -/
def requiredMark (act : PyAction) : Bool :=
  (!act.option_strings.isEmpty && act.required) || act.option_strings.isEmpty

/-- The widget label: `action.help or action.dest`, with the red asterisk
marker added for required arguments (lines 82-88). -/
def actionLabel (act : PyAction) : String :=
  let lbl := match act.help with
    | some h => if h == "" then act.dest else h
    | none => act.dest
  if requiredMark act then "**:red[*]** " ++ lbl else lbl

/-- The computed default: `action.default if action.default is not
argparse.SUPPRESS else ""` (line 100). -/
def computedDefault (act : PyAction) : PyVal :=
  match act.default with
  | .suppress => .str ""
  | .val v => v

/-- Translation of `widget_for_action` (lines 79-112): store-true actions
become checkboxes, non-empty choice lists become selectboxes, int/float
types become number inputs, everything else becomes a plain (unmasked)
text input. -/
def widget_for_action (act : PyAction) : Widget :=
  if act.isStoreTrue then
    .checkbox (actionLabel act) false
  else if (match act.choices with | some cs => !cs.isEmpty | none => false) then
    .selectbox (actionLabel act) (act.choices.getD [])
  else
    let typ := act.type.getD .tstr
    let dflt := computedDefault act
    if typ = PyType.tint ∨ typ = PyType.tfloat then
      .numberInput (actionLabel act)
        (if dflt == PyVal.str "" then PyVal.int 0 else dflt)
        (if typ = PyType.tint then NumStep.one else NumStep.tenth)
        (if typ = PyType.tint then "%d" else "%.2f")
    else
      .textInput (actionLabel act) dflt false

/-- Modelled from the spec: a credential-like argument name pattern
("denotes a secret", section 4.2). The source contains no such pattern;
this predicate names the inputs the claim is about. -/
def credLike (s : String) : Bool :=
  s == "password" || s == "pwd" || s == "secret" || s == "token"

/-- Whether an action falls into the free-string fallback branch of
`widget_for_action`: not store-true, no (non-empty) choices, and a
non-numeric type. -/
def isFreeString (act : PyAction) : Bool :=
  !act.isStoreTrue && (act.choices.getD []).isEmpty
    && (act.type.getD PyType.tstr == PyType.tstr)

/-- Loop body of `build_argv` (lines 131-147) for one action: skip actions
absent from the value dict; store-true actions contribute their flag token
when the value is truthy; other optionals contribute `[flag, str(val)]`
when the value is not in `("", None)`; positionals always contribute
`str(val)`. -/
def argvSegment (values : String → Option PyVal) (act : PyAction) : List String :=
  match values act.dest with
  | none => []
  | some val =>
    if act.isStoreTrue then
      if pyTruthy val then [act.option_strings.getLastD ""] else []
    else if !act.option_strings.isEmpty then
      if !isEmptyVal val then [act.option_strings.getLastD "", pyStr val] else []
    else
      [pyStr val]

/-- Translation of `build_argv` (lines 128-148): fold the loop body over the
parser's actions in declaration order. -/
def build_argv (actions : List PyAction) (values : String → Option PyVal) : List String :=
  match actions with
  | [] => []
  | act :: rest => argvSegment values act ++ build_argv rest values

/-- Spec-side per-declaration emission, written from section 4.3 of the
specification: boolean-flags emit their token only when the form value is
true; value-flags emit `[flagToken, stringifiedValue]` only when the value
is non-empty; positionals always emit `stringifiedValue`. -/
def specSegment (values : String → Option PyVal) (act : PyAction) : List String :=
  if act.isStoreTrue then
    match values act.dest with
    | some (.bool true) => [act.option_strings.getLastD ""]
    | _ => []
  else if !act.option_strings.isEmpty then
    match values act.dest with
    | some v => if !isEmptyVal v then [act.option_strings.getLastD "", pyStr v] else []
    | none => []
  else
    match values act.dest with
    | some v => [pyStr v]
    | none => []

/-- The missing-required-fields list from the Run handler (lines 229-237):
destinations of actions that are required (an option with `required=True`,
or a positional) and whose widget value is falsy. -/
def missing_fields (actions : List PyAction) (values : String → Option PyVal) : List String :=
  (actions.filter (fun act =>
    ((!act.option_strings.isEmpty && act.required) || act.option_strings.isEmpty)
      && !truthyOpt (values act.dest))).map (fun act => act.dest)

/-- The declared option-string set `set(parser._option_string_actions)`
(line 245): every option string of every action. -/
def opt_keys (actions : List PyAction) : List String :=
  (actions.map (fun act => act.option_strings)).flatten

/-- The sidebar's global MySQL settings (lines 196-201). -/
structure GlobalSettings where
  host : String
  user : String
  password : String
  db : String
  dry_run : Bool
deriving DecidableEq

/-- The credential-injection loop (lines 246-253): for each reserved flag
in order, append `[flag, val]` when the flag is declared and the setting is
non-empty (Python truthiness of a string). -/
def injectLoop (opt : List String) (pairs : List (String × String)) (argv : List String) :
    List String :=
  match pairs with
  | [] => argv
  | (flag, val) :: rest =>
    injectLoop opt rest (if flag ∈ opt ∧ val ≠ "" then argv ++ [flag, val] else argv)

/-- Translation of the MySQL flag injection of the Run handler
(lines 244-255): run the credential loop over host/user/password/db, then
append `--dry-run` when it is declared, the global toggle is on and the
token is not already present in the assembled argv. -/
def inject (opt : List String) (gs : GlobalSettings) (argv : List String) : List String :=
  let argv := injectLoop opt
    [("--host", gs.host), ("--user", gs.user), ("--password", gs.password), ("--db", gs.db)]
    argv
  if "--dry-run" ∈ opt ∧ gs.dry_run ∧ "--dry-run" ∉ argv then argv ++ ["--dry-run"] else argv

/-- Spec-side credential pairs, written from section 4.4 of the
specification: each reserved value-flag contributes `[flag, setting]`
exactly when the descriptor declares the flag and the setting is
non-empty. -/
def credPairs (opt : List String) (gs : GlobalSettings) : List String :=
  (if "--host" ∈ opt ∧ gs.host ≠ "" then ["--host", gs.host] else [])
    ++ (if "--user" ∈ opt ∧ gs.user ≠ "" then ["--user", gs.user] else [])
    ++ (if "--password" ∈ opt ∧ gs.password ≠ "" then ["--password", gs.password] else [])
    ++ (if "--db" ∈ opt ∧ gs.db ≠ "" then ["--db", gs.db] else [])

/-- Spec-side injector, written from section 4.4 of the specification:
append the credential pairs, then `--dry-run` when declared, toggled on and
not already present in the invocation. -/
def inject_spec (opt : List String) (gs : GlobalSettings) (argv : List String) : List String :=
  if "--dry-run" ∈ opt ∧ gs.dry_run ∧ "--dry-run" ∉ argv ++ credPairs opt gs then
    argv ++ credPairs opt gs ++ ["--dry-run"]
  else
    argv ++ credPairs opt gs

/-- Outcome of the Run-button handler: either the run is blocked with the
reported missing fields, or the execution engine is invoked with the
assembled invocation. -/
inductive HandlerResult where
  | blocked (missing : List String)
  | ran (argv : List String)
deriving DecidableEq

/-- Translation of the module-level Run handler (lines 227-259): compute
the missing required fields; when the list is non-empty, report it and stop
before anything runs; otherwise build the argv from the form, inject the
MySQL flags and hand the invocation to the execution engine. -/
def run_handler (actions : List PyAction) (values : String → Option PyVal)
    (gs : GlobalSettings) : HandlerResult :=
  let missing := missing_fields actions values
  if missing.isEmpty then
    .ran (inject (opt_keys actions) gs (build_argv actions values))
  else
    .blocked missing

/-- What the executed entry point does: return a value (`None` or an int),
raise `SystemExit` with an optional integer code, or raise any other
exception (carried as its message). -/
inductive MainOutcome where
  | ret (rc : Option Int)
  | sysExit (code : Option Int)
  | raise (msg : String)

/-- Behaviour of a command module under execution: from the `sys.argv` the
module observes, produce the stdout text, the stderr text, and the
outcome. This abstracts the three call paths of `run_module`
(`cli`+`main(ns)`, bare `main()`, `runpy`). -/
structure ModBehavior where
  run : List String → String × String × MainOutcome

/-- Python `x or 0` on an optional integer: `None` and `0` give `0`,
anything else gives itself (lines 167 and 173). -/
def pyOrZero : Option Int → Int
  | none => 0
  | some n => if n = 0 then 0 else n

/-- Result of one engine run: either a returned Execution Result
(captured stdout, captured stderr, termination code) or an exception that
propagated out of `run_module` uncaught. -/
inductive RunOutcome where
  | result (out err : String) (rc : Int)
  | exn (msg : String)
deriving DecidableEq

/-- Whether an engine run returned an Execution Result. -/
def isResult : RunOutcome → Bool
  | .result _ _ _ => true
  | .exn _ => false

/-- Translation of `run_module` (lines 156-176): save `sys.argv`, set it to
`[mod.__name__] + argv`, run the module's entry point, catch only
`SystemExit` (mapping its code through `or 0`), and restore `sys.argv` in
`finally` on every exit path; any other exception propagates. The returned
pair is (outcome, `sys.argv` after the call). -/
def run_module (sysArgv : List String) (modName : String) (argv : List String)
    (beh : ModBehavior) : RunOutcome × List String :=
  let r := beh.run (modName :: argv)
  (match r.2.2 with
   | .ret rc => .result r.1 r.2.1 (pyOrZero rc)
   | .sysExit c => .result r.1 r.2.1 (pyOrZero c)
   | .raise m => .exn m,
   sysArgv)

/-- Result of attempting to load one script module: the loaded module
(identified by name) or the load-time exception's message. -/
inductive LoadResult where
  | ok (modName : String)
  | err (msg : String)
deriving DecidableEq

/-- Whether a load attempt succeeded. -/
def isOkLoad : LoadResult → Bool
  | .ok _ => true
  | .err _ => false

/-- Translation of the module-level tab loop (lines 212-216): each script's
tab is rendered in order; `import_module` is called with no exception
handling, so a load failure propagates, aborting the loop. Returns the
names of the fully rendered tabs and the propagated error, if any. -/
def render_tabs : List (String × LoadResult) → List String × Option String
  | [] => ([], none)
  | (_, .err m) :: _ => ([], some m)
  | (name, .ok _) :: rest =>
    (name :: (render_tabs rest).1, (render_tabs rest).2)

/- Concrete inputs used by witnesses and counterexamples. -/

/-- A free-string argparse action whose name denotes a secret. -/
def pwAct : PyAction :=
  { dest := "password", option_strings := ["--password"], required := false,
    isStoreTrue := false, help := none, choices := none, type := none,
    default := .val .pynone }

/-- Empty global settings. -/
def gs0 : GlobalSettings := ⟨"", "", "", "", false⟩

/-- A behaviour that raises a non-`SystemExit` exception. -/
def raiseBeh : ModBehavior := ⟨fun _ => ("", "", .raise "ValueError: boom")⟩

/-- A required positional argument named `id`. -/
def idAct : PyAction :=
  { dest := "id", option_strings := [], required := true, isStoreTrue := false,
    help := none, choices := none, type := none, default := .val (.str "") }

/-- An optional integer value-flag `--limit`. -/
def limitAct : PyAction :=
  { dest := "limit", option_strings := ["--limit"], required := false,
    isStoreTrue := false, help := none, choices := none, type := some .tint,
    default := .val (.int 0) }

/-- A boolean flag `--verbose`. -/
def verboseAct : PyAction :=
  { dest := "verbose", option_strings := ["--verbose"], required := false,
    isStoreTrue := true, help := none, choices := none, type := none,
    default := .val (.bool false) }

/-- An optional value-flag `--host` backed by the form. -/
def hostAct : PyAction :=
  { dest := "host", option_strings := ["--host"], required := false,
    isStoreTrue := false, help := none, choices := none, type := none,
    default := .val (.str "") }

/-- Form state for the gating witness: the required `id` is empty. -/
def vals2 : String → Option PyVal :=
  fun d => if d = "id" then some (.str "") else none

/-- Fully populated form state for the builder witness. -/
def vals4 : String → Option PyVal :=
  fun d =>
    if d = "limit" then some (.str "")
    else if d = "verbose" then some (.bool true)
    else if d = "id" then some (.str "abc")
    else none

/-- Form state with a zero-valued `--limit`. -/
def vals9 : String → Option PyVal :=
  fun d => if d = "limit" then some (.int 0) else none

/-- Form state supplying a non-empty `--host` value. -/
def vals10 : String → Option PyVal :=
  fun d => if d = "host" then some (.str "formhost") else none

/-- Global settings with a non-empty host, for the double-injection
witness. -/
def gs10 : GlobalSettings := ⟨"globalhost", "", "", "", false⟩

/-! Helper lemmas shared between the claim theorems. -/

/-- Building an invocation over a concatenation of declarations
concatenates the per-declaration emissions. -/
lemma build_argv_append (xs ys : List PyAction) (values : String → Option PyVal) :
    build_argv (xs ++ ys) values = build_argv xs values ++ build_argv ys values := by
  induction xs with
  | nil => rfl
  | cons a t ih => simp [build_argv, ih, List.append_assoc]

/-- The last element with default of a non-empty list is a member. -/
lemma getLastD_mem (l : List String) (d : String) (h : l ≠ []) : l.getLastD d ∈ l := by
  induction l generalizing d with
  | nil => exact absurd rfl h
  | cons a t ih =>
    rw [List.getLastD_cons]
    cases t with
    | nil => simp [List.getLastD]
    | cons b u => exact List.mem_cons_of_mem _ (ih a (by simp))

/-- Emission of one non-store-true value-flag declaration whose value is
present and non-empty. -/
lemma argvSegment_value_flag {values : String → Option PyVal} {act : PyAction} {v : PyVal}
    (hst : act.isStoreTrue = false) (hos : act.option_strings ≠ [])
    (hv : values act.dest = some v) (hne : isEmptyVal v = false) :
    argvSegment values act = [act.option_strings.getLastD "", pyStr v] := by
  have hosb : act.option_strings.isEmpty = false := by
    cases h : act.option_strings with
    | nil => exact absurd h hos
    | cons a t => rfl
  simp [argvSegment, hv, hst, hosb, hne]

/-- The sequential credential loop equals the concatenation of the
spec-side conditional pairs. -/
lemma injectLoop_eq (opt : List String) (gs : GlobalSettings) (argv : List String) :
    injectLoop opt
      [("--host", gs.host), ("--user", gs.user), ("--password", gs.password), ("--db", gs.db)]
      argv
      = argv ++ credPairs opt gs := by
  simp only [injectLoop, credPairs]
  split_ifs <;> simp_all [List.append_assoc]

/-- The source injector computes exactly the spec-side injector. -/
lemma inject_eq_spec (opt : List String) (gs : GlobalSettings) (argv : List String) :
    inject opt gs argv = inject_spec opt gs argv := by
  simp only [inject, injectLoop_eq, inject_spec, List.append_assoc]

/-- The injector only ever appends to the form-derived invocation: the
result is the invocation, then the credential pairs, then a possible
`--dry-run` tail. -/
lemma inject_tail (opt : List String) (gs : GlobalSettings) (argv : List String) :
    ∃ t, inject opt gs argv = argv ++ credPairs opt gs ++ t := by
  rw [inject_eq_spec]; unfold inject_spec
  split_ifs with h
  · exact ⟨["--dry-run"], by simp [List.append_assoc]⟩
  · exact ⟨[], by simp⟩

/-- Membership in a conditional block implies the condition and membership
in the block's list. -/
lemma mem_if_block {t : String} {c : Prop} [Decidable c] {l : List String}
    (h : t ∈ (if c then l else [])) : c ∧ t ∈ l := by
  split at h
  · exact ⟨by assumption, h⟩
  · simp at h

/-- A member of a guarded credential pair is the declared flag or its
value. -/
lemma cred_block_mem_eq {t flag val : String} {c : Prop} [Decidable c]
    (h : t ∈ (if c then [flag, val] else ([] : List String))) : t = flag ∨ t = val := by
  rcases mem_if_block h with ⟨_, ht⟩
  simpa using ht

/-- A member of a guarded credential pair whose guard requires the flag to
be declared is either a declared option string or the setting value. -/
lemma cred_block_mem {t flag val : String} {opt : List String} {c : Prop} [Decidable c]
    (h : t ∈ (if flag ∈ opt ∧ c then [flag, val] else ([] : List String))) :
    t ∈ opt ∨ t = val := by
  rcases mem_if_block h with ⟨⟨hf, _⟩, ht⟩
  rcases List.mem_cons.1 ht with rfl | ht
  · exact Or.inl hf
  · rcases List.mem_cons.1 ht with rfl | ht
    · exact Or.inr rfl
    · simp at ht

/-- Every token of the credential pairs is a declared option string or one
of the four global setting values. -/
lemma credPairs_mem {t : String} {opt : List String} {gs : GlobalSettings}
    (h : t ∈ credPairs opt gs) :
    t ∈ opt ∨ t = gs.host ∨ t = gs.user ∨ t = gs.password ∨ t = gs.db := by
  unfold credPairs at h
  rcases List.mem_append.1 h with h | h
  · rcases List.mem_append.1 h with h | h
    · rcases List.mem_append.1 h with h | h
      · rcases cred_block_mem h with h | h
        · exact Or.inl h
        · exact Or.inr (Or.inl h)
      · rcases cred_block_mem h with h | h
        · exact Or.inl h
        · exact Or.inr (Or.inr (Or.inl h))
    · rcases cred_block_mem h with h | h
      · exact Or.inl h
      · exact Or.inr (Or.inr (Or.inr (Or.inl h)))
  · rcases cred_block_mem h with h | h
    · exact Or.inl h
    · exact Or.inr (Or.inr (Or.inr (Or.inr h)))

/-- The credential pairs contain, for a declared reserved flag with a
non-empty setting, the pair `[flag, setting]` as a contiguous segment. -/
lemma credPairs_split (opt : List String) (gs : GlobalSettings) (f g : String)
    (hc : (f = "--host" ∧ g = gs.host) ∨ (f = "--user" ∧ g = gs.user)
        ∨ (f = "--password" ∧ g = gs.password) ∨ (f = "--db" ∧ g = gs.db))
    (hf : f ∈ opt) (hg : g ≠ "") :
    ∃ c1 c2, credPairs opt gs = c1 ++ f :: g :: c2 := by
  rcases hc with ⟨h1, h2⟩ | ⟨h1, h2⟩ | ⟨h1, h2⟩ | ⟨h1, h2⟩ <;> subst h1 <;> subst h2
  · exact ⟨[],
      (if "--user" ∈ opt ∧ gs.user ≠ "" then ["--user", gs.user] else [])
        ++ (if "--password" ∈ opt ∧ gs.password ≠ "" then ["--password", gs.password] else [])
        ++ (if "--db" ∈ opt ∧ gs.db ≠ "" then ["--db", gs.db] else []),
      by simp [credPairs, hf, hg, List.append_assoc]⟩
  · exact ⟨(if "--host" ∈ opt ∧ gs.host ≠ "" then ["--host", gs.host] else []),
      (if "--password" ∈ opt ∧ gs.password ≠ "" then ["--password", gs.password] else [])
        ++ (if "--db" ∈ opt ∧ gs.db ≠ "" then ["--db", gs.db] else []),
      by simp [credPairs, hf, hg, List.append_assoc]⟩
  · exact ⟨(if "--host" ∈ opt ∧ gs.host ≠ "" then ["--host", gs.host] else [])
        ++ (if "--user" ∈ opt ∧ gs.user ≠ "" then ["--user", gs.user] else []),
      (if "--db" ∈ opt ∧ gs.db ≠ "" then ["--db", gs.db] else []),
      by simp [credPairs, hf, hg, List.append_assoc]⟩
  · exact ⟨(if "--host" ∈ opt ∧ gs.host ≠ "" then ["--host", gs.host] else [])
        ++ (if "--user" ∈ opt ∧ gs.user ≠ "" then ["--user", gs.user] else [])
        ++ (if "--password" ∈ opt ∧ gs.password ≠ "" then ["--password", gs.password] else []),
      [],
      by simp [credPairs, hf, hg, List.append_assoc]⟩

/-- The Run handler's required-field predicate agrees with the claim-side
formulation "a positional, or a flag explicitly marked required". -/
lemma missing_fields_eq (actions : List PyAction) (values : String → Option PyVal) :
    missing_fields actions values
      = (actions.filter (fun a => (a.option_strings.isEmpty || a.required)
          && !truthyOpt (values a.dest))).map (fun a => a.dest) := by
  unfold missing_fields
  congr 1
  apply List.filter_congr
  intro a _
  have hb : ∀ x y : Bool, ((!x && y) || x) = (x || y) := by decide
  rw [hb]

/-- A well-typed store-true entry of the form state holds a boolean. -/
lemma wt_elim {values : String → Option PyVal} {a : PyAction}
    (h : (!a.isStoreTrue || (match values a.dest with
          | some (.bool _) => true | _ => false)) = true)
    (hst : a.isStoreTrue = true) : ∃ b, values a.dest = some (.bool b) := by
  rw [hst] at h
  simp only [Bool.not_true, Bool.false_or] at h
  cases hv : values a.dest with
  | none => rw [hv] at h; exact absurd h (by simp)
  | some v =>
    cases v with
    | str s => rw [hv] at h; exact absurd h (by simp)
    | int n => rw [hv] at h; exact absurd h (by simp)
    | bool b => exact ⟨b, rfl⟩
    | pynone => rw [hv] at h; exact absurd h (by simp)

/-- On present values (with store-true values boolean), the source's loop
body agrees with the spec-side per-declaration emission. -/
lemma argvSegment_eq_spec {values : String → Option PyVal} {act : PyAction}
    (hfull : (values act.dest).isSome = true)
    (hwt : act.isStoreTrue = true → ∃ b, values act.dest = some (.bool b)) :
    argvSegment values act = specSegment values act := by
  cases hval : values act.dest with
  | none => rw [hval] at hfull; simp at hfull
  | some v =>
    by_cases hst : act.isStoreTrue = true
    · obtain ⟨b, hb⟩ := hwt hst
      rw [hval] at hb
      injection hb with hb
      subst hb
      cases b <;> simp [argvSegment, specSegment, hval, hst, pyTruthy]
    · have hst' : act.isStoreTrue = false := by simpa using hst
      simp [argvSegment, specSegment, hval, hst']

/-- Under a fully populated, flag-well-typed form state, the source builder
equals the spec-side emission, declaration by declaration. -/
lemma build_argv_eq_spec (actions : List PyAction) (values : String → Option PyVal)
    (hfull : actions.all (fun a => (values a.dest).isSome) = true)
    (hwt : actions.all (fun a => !a.isStoreTrue
        || (match values a.dest with | some (.bool _) => true | _ => false)) = true) :
    build_argv actions values = (actions.map (specSegment values)).flatten := by
  induction actions with
  | nil => rfl
  | cons a t ih =>
    simp only [List.all_cons, Bool.and_eq_true] at hfull hwt
    rw [build_argv, List.map_cons, List.flatten_cons, ih hfull.2 hwt.2,
      argvSegment_eq_spec hfull.1 (wt_elim hwt.1)]

/-! Claim theorems. -/

/-- C1 counterexample: the claim says a non-`SystemExit` failure is caught
and an Execution Result with non-zero code and non-empty error text is
returned. At a concrete run whose entry point raises `ValueError`, the
engine returns no Execution Result at all: the exception propagates out of
`run_module` (only `SystemExit` is caught, line 172). -/
theorem C1_counterexample :
    isResult (run_module ["streamlit_app"] "modify_reviews" [] raiseBeh).1 = false := rfl

/-- C1 amended: a failure other than `SystemExit` is not caught by the
Execution Engine; it propagates out of `run_module` carrying its message,
so no Execution Result (and no termination code) is produced, though
`sys.argv` is still restored by the `finally` clause. The dashboard session
survives only because the surrounding framework, outside this code, catches
the exception. -/
theorem C1_engine_propagates (st : List String) (name : String) (argv : List String)
    (o e m : String) :
    run_module st name argv ⟨fun _ => (o, e, .raise m)⟩ = (RunOutcome.exn m, st) := rfl

/-- C2: whenever some required argument (a positional, or a flag explicitly
marked required) has an empty — Python-falsy — value, the Run handler
blocks before the Execution Engine is invoked, and the reported missing
list is exactly the required-and-empty destinations in declaration
order (`HandlerResult.blocked` is the branch taken before any command
runs). -/
theorem C2_required_field_gating (actions : List PyAction) (values : String → Option PyVal)
    (gs : GlobalSettings)
    (h : (actions.filter (fun a => (a.option_strings.isEmpty || a.required)
          && !truthyOpt (values a.dest))).map (fun a => a.dest) ≠ []) :
    run_handler actions values gs
      = .blocked ((actions.filter (fun a => (a.option_strings.isEmpty || a.required)
          && !truthyOpt (values a.dest))).map (fun a => a.dest)) := by
  have hne : ((actions.filter (fun a => (a.option_strings.isEmpty || a.required)
      && !truthyOpt (values a.dest))).map (fun a => a.dest)).isEmpty = false := by
    cases hc : (actions.filter (fun a => (a.option_strings.isEmpty || a.required)
        && !truthyOpt (values a.dest))).map (fun a => a.dest) with
    | nil => exact absurd hc h
    | cons x t => rfl
  simp only [run_handler, missing_fields_eq, hne, Bool.false_eq_true, if_false]

/-- C2 witness: the scenario from section 8 of the specification — a
single required positional `id` whose form value is the empty string is
blocked with missing list exactly `["id"]`. -/
theorem C2_witness : run_handler [idAct] vals2 gs0 = .blocked ["id"] := by
  have h := C2_required_field_gating [idAct] vals2 gs0 (by decide)
  exact h.trans (by decide)

/-- C3 counterexample: with a descriptor declaring only `--host`, global
host `"h"` and an empty form invocation, the injected invocation contains
the token `"h"`, which is neither a declared flag token nor a token of the
form-derived invocation — refuting the claim's clause that every token of
the final invocation is one of those. -/
theorem C3_counterexample :
    "h" ∈ inject ["--host"] ⟨"h", "", "", "", false⟩ []
    ∧ "h" ∉ (["--host"] : List String)
    ∧ "h" ∉ ([] : List String) := by decide

/-- C3 amended: the Credential Injector appends a credential value-flag
only if that exact flag token is declared and the corresponding global
setting is non-empty, and `--dry-run` only if declared, toggled on, and not
already present (the source injector equals the spec-side `inject_spec`,
which states exactly those conditions); every token of the final invocation
is a form-derived token, a declared flag token, or the value of one of the
four global settings; and a declared `--host` with an empty global host
contributes no tokens (under no aliasing of the other setting values). -/
theorem C3_injector_amended (opt : List String) (gs : GlobalSettings) (argv : List String) :
    (∀ t ∈ inject opt gs argv,
        t ∈ argv ∨ t ∈ opt ∨ t = gs.host ∨ t = gs.user ∨ t = gs.password ∨ t = gs.db)
    ∧ (gs.host = "" → "--host" ∉ argv → gs.user ≠ "--host" → gs.password ≠ "--host" →
        gs.db ≠ "--host" → "--host" ∉ inject opt gs argv)
    ∧ inject opt gs argv = inject_spec opt gs argv := by
  refine ⟨?_, ?_, inject_eq_spec opt gs argv⟩
  · intro t ht
    rw [inject_eq_spec] at ht
    unfold inject_spec at ht
    split at ht
    · rcases List.mem_append.1 ht with h1 | h1
      · rcases List.mem_append.1 h1 with h2 | h2
        · exact Or.inl h2
        · rcases credPairs_mem h2 with h3 | h3
          · exact Or.inr (Or.inl h3)
          · exact Or.inr (Or.inr h3)
      · have hd : t = "--dry-run" := List.mem_singleton.1 h1
        subst hd
        next hc => exact Or.inr (Or.inl hc.1)
    · rcases List.mem_append.1 ht with h1 | h1
      · exact Or.inl h1
      · rcases credPairs_mem h1 with h3 | h3
        · exact Or.inr (Or.inl h3)
        · exact Or.inr (Or.inr h3)
  · intro hh hargv hu hp hd hmem
    rw [inject_eq_spec] at hmem
    unfold inject_spec at hmem
    have hcp : "--host" ∉ credPairs opt gs := by
      intro hc
      unfold credPairs at hc
      rcases List.mem_append.1 hc with h1 | h1
      · rcases List.mem_append.1 h1 with h2 | h2
        · rcases List.mem_append.1 h2 with h3 | h3
          · rcases mem_if_block h3 with ⟨⟨_, hne⟩, _⟩
            exact hne hh
          · rcases cred_block_mem_eq h3 with h4 | h4
            · exact absurd h4 (by decide)
            · exact hu h4.symm
        · rcases cred_block_mem_eq h2 with h4 | h4
          · exact absurd h4 (by decide)
          · exact hp h4.symm
      · rcases cred_block_mem_eq h1 with h4 | h4
        · exact absurd h4 (by decide)
        · exact hd h4.symm
    split at hmem
    · rcases List.mem_append.1 hmem with h1 | h1
      · rcases List.mem_append.1 h1 with h2 | h2
        · exact hargv h2
        · exact hcp h2
      · have hdr : ("--host" : String) = "--dry-run" := List.mem_singleton.1 h1
        exact absurd hdr (by decide)
    · rcases List.mem_append.1 hmem with h1 | h1
      · exact hargv h1
      · exact hcp h1

/-- C3 witness: with `--host` and `--dry-run` declared, an empty global
host and non-aliasing other settings, the injected invocation contains no
`--host` token. -/
theorem C3_witness :
    "--host" ∉ inject ["--host", "--dry-run"] ⟨"", "u", "p", "d", true⟩ ["x"] :=
  (C3_injector_amended ["--host", "--dry-run"] ⟨"", "u", "p", "d", true⟩ ["x"]).2.1
    rfl (by decide) (by decide) (by decide) (by decide)

/-- C4: on a fully populated form state (every declared destination
present, store-true values boolean), the Invocation Builder emits the
declarations in descriptor order — the result is the concatenation of the
spec-side per-declaration segments (boolean-flag token iff true; value-flag
pair iff non-empty; positional value unconditionally) — never omits a
positional token, and produces the empty segment for a value-flag whose
optional value is empty. -/
theorem C4_invocation_builder (actions : List PyAction) (values : String → Option PyVal)
    (hfull : actions.all (fun a => (values a.dest).isSome) = true)
    (hwt : actions.all (fun a => !a.isStoreTrue
        || (match values a.dest with | some (.bool _) => true | _ => false)) = true) :
    build_argv actions values = (actions.map (specSegment values)).flatten
    ∧ (∀ a ∈ actions, a.option_strings = [] → a.isStoreTrue = false →
        ∃ v, values a.dest = some v ∧ pyStr v ∈ build_argv actions values)
    ∧ (∀ a ∈ actions, a.option_strings ≠ [] → a.isStoreTrue = false →
        ∀ v, values a.dest = some v → isEmptyVal v = true → specSegment values a = []) := by
  have heq := build_argv_eq_spec actions values hfull hwt
  refine ⟨heq, ?_, ?_⟩
  · intro a ha hos hst
    have hsome : (values a.dest).isSome = true := by
      have := List.all_eq_true.1 hfull a ha
      simpa using this
    cases hv : values a.dest with
    | none => rw [hv] at hsome; simp at hsome
    | some v =>
      refine ⟨v, rfl, ?_⟩
      have hseg : specSegment values a = [pyStr v] := by
        simp [specSegment, hst, hos, hv]
      rw [heq]
      exact List.mem_flatten.2 ⟨[pyStr v],
        by rw [← hseg]; exact List.mem_map_of_mem _ ha, by simp⟩
  · intro a ha hos hst v hv hemp
    have hosb : a.option_strings.isEmpty = false := by
      cases h : a.option_strings with
      | nil => exact absurd h hos
      | cons x t => rfl
    simp [specSegment, hst, hosb, hv, hemp]

/-- C4 witness: the descriptor with an empty optional `--limit`, a true
`--verbose` and a populated positional `id` builds exactly
`["--verbose", "abc"]`. -/
theorem C4_witness :
    ([limitAct, verboseAct, idAct].all (fun a => (vals4 a.dest).isSome)) = true
    ∧ build_argv [limitAct, verboseAct, idAct] vals4 = ["--verbose", "abc"] := by
  refine ⟨by decide, ?_⟩
  have h := (C4_invocation_builder [limitAct, verboseAct, idAct] vals4
    (by decide) (by decide)).1
  exact h.trans (by decide)

/-- C5 counterexample: the claim says a load failure disables only the
failing command's tab and leaves the other tabs usable. In a concrete
script list where the first script fails to load and the second is fine,
the tab loop renders no tab at all and the error propagates — the loadable
script's tab is not rendered. -/
theorem C5_counterexample :
    render_tabs [("broken_script", .err "SyntaxError: invalid syntax"),
      ("replace_word", .ok "replace_word")]
      = ([], some "SyntaxError: invalid syntax") := by decide

/-- C5 amended: a load failure propagates out of the tab loop uncaught
(there is no handling around `import_module`, line 215): the scripts before
the failing one render their tabs, the failing script's tab and every later
script's tab are not rendered, and the loop aborts with the load error —
the rest of the dashboard run is lost, not just the failing tab. -/
theorem C5_tab_loop_amended (pre : List (String × LoadResult)) (name msg : String)
    (rest : List (String × LoadResult))
    (h : pre.all (fun e => isOkLoad e.2) = true) :
    render_tabs (pre ++ (name, .err msg) :: rest) = (pre.map (fun e => e.1), some msg) := by
  induction pre with
  | nil => rfl
  | cons e t ih =>
    obtain ⟨n, lr⟩ := e
    simp only [List.all_cons, Bool.and_eq_true] at h
    cases lr with
    | err m => simp [isOkLoad] at h
    | ok mn =>
      rw [List.cons_append]
      simp [render_tabs, ih h.2]

/-- C5 witness: with one loadable script before and one after the broken
script, only the earlier script's tab is rendered and the error
propagates. -/
theorem C5_witness :
    render_tabs [("extract_reviews", .ok "extract_reviews"),
      ("broken_script", .err "SyntaxError: invalid syntax"),
      ("insert_reviews", .ok "insert_reviews")]
      = (["extract_reviews"], some "SyntaxError: invalid syntax") := by
  have h := C5_tab_loop_amended [("extract_reviews", .ok "extract_reviews")]
    "broken_script" "SyntaxError: invalid syntax"
    [("insert_reviews", .ok "insert_reviews")] (by decide)
  exact h.trans (by decide)

/-- C6: a run ending in `SystemExit` with no explicit code yields
termination code 0, and with integer code N yields code N (the source maps
the code through `e.code or 0`, which is the identity on integers since
`0 or 0` is `0`). -/
theorem C6_explicit_stop_code (st : List String) (name : String) (argv : List String)
    (o e : String) :
    (run_module st name argv ⟨fun _ => (o, e, .sysExit none)⟩).1 = .result o e 0
    ∧ ∀ N : Int, (run_module st name argv ⟨fun _ => (o, e, .sysExit (some N))⟩).1
        = .result o e N := by
  refine ⟨rfl, fun N => ?_⟩
  by_cases hN : N = 0
  · subst hN; rfl
  · simp [run_module, pyOrZero, hN]

/-- C7: on every exit path of the Execution Engine — normal return,
explicit stop signal, or any other raised failure — `sys.argv` is restored
to its pre-run value (the `finally` clause of `run_module`, line 175). The
first conjunct covers an arbitrary behaviour; the rest spell out the three
exit paths. -/
theorem C7_sys_argv_restored (st : List String) (name : String) (argv : List String)
    (beh : ModBehavior) (o e : String) (rc c : Option Int) (m : String) :
    (run_module st name argv beh).2 = st
    ∧ (run_module st name argv ⟨fun _ => (o, e, .ret rc)⟩).2 = st
    ∧ (run_module st name argv ⟨fun _ => (o, e, .sysExit c)⟩).2 = st
    ∧ (run_module st name argv ⟨fun _ => (o, e, .raise m)⟩).2 = st :=
  ⟨rfl, rfl, rfl, rfl⟩

/-- C8 counterexample: the claim says a free-string argument whose name
denotes a secret gets a masked text field. The action named `password` is
credential-like and free-string, yet `widget_for_action` renders an
unmasked text field — the source never passes a password type to
`st.text_input` (line 112). -/
theorem C8_counterexample :
    credLike pwAct.dest = true ∧ isFreeString pwAct = true
    ∧ isMasked (widget_for_action pwAct) = false := ⟨rfl, rfl, rfl⟩

/-- C8 amended: every free-string argument — credential-like or not — is
rendered as an unmasked text field whose initial value is the declared
default (the empty string when the default is suppressed); no masking is
applied to any synthesized field. -/
theorem C8_free_string_unmasked (act : PyAction) (h : isFreeString act = true) :
    widget_for_action act = .textInput (actionLabel act) (computedDefault act) false := by
  simp only [isFreeString, Bool.and_eq_true, Bool.not_eq_true', beq_iff_eq] at h
  obtain ⟨⟨hst, hch⟩, hty⟩ := h
  cases hc : act.choices with
  | none => simp [widget_for_action, hst, hc, hty]
  | some cs =>
    rw [hc] at hch
    simp only [Option.getD_some] at hch
    have hnil : cs = [] := by
      cases cs with
      | nil => rfl
      | cons x t => simp [List.isEmpty] at hch
    subst hnil
    simp [widget_for_action, hst, hc, hty]

/-- C8 witness: the credential-named free-string action renders as the
concrete unmasked text field. -/
theorem C8_witness :
    isFreeString pwAct = true
    ∧ widget_for_action pwAct = .textInput "password" PyVal.pynone false := by
  refine ⟨rfl, ?_⟩
  have h := C8_free_string_unmasked pwAct rfl
  exact h.trans (by decide)

/-- C9: an optional value-flag whose form value is the integer zero is
emitted as the flag token followed by `"0"`: in the source's emptiness test
`val not in ("", None)` a zero is not empty, so a present-but-zero optional
numeric value is treated as explicitly set. -/
theorem C9_zero_value_flag (pre post : List PyAction) (act : PyAction)
    (values : String → Option PyVal)
    (hos : act.option_strings ≠ []) (hst : act.isStoreTrue = false)
    (hv : values act.dest = some (.int 0)) :
    build_argv (pre ++ act :: post) values
      = build_argv pre values
        ++ act.option_strings.getLastD "" :: "0" :: build_argv post values := by
  have h0 : pyStr (PyVal.int 0) = "0" := by decide
  have hseg : argvSegment values act = [act.option_strings.getLastD "", "0"] := by
    rw [argvSegment_value_flag hst hos hv (by decide), h0]
  rw [build_argv_append]
  simp [build_argv, hseg]

/-- C9 witness: a lone optional integer `--limit` with form value 0 builds
exactly `["--limit", "0"]`. -/
theorem C9_witness : build_argv [limitAct] vals9 = ["--limit", "0"] := by
  have h := C9_zero_value_flag [] [] limitAct vals9 (by decide) rfl (by decide)
  exact h.trans (by decide)

/-- C10: injected credential tokens are appended after all form-derived
tokens: when the descriptor declares a credential flag, the form supplies a
non-empty value for it, and the corresponding global setting is non-empty,
the assembled invocation contains the flag twice — the form-derived pair
first and the global-settings pair later in the sequence. -/
theorem C10_injection_after_form (pre post : List PyAction) (act : PyAction)
    (values : String → Option PyVal) (gs : GlobalSettings) (f g : String) (v : PyVal)
    (hst : act.isStoreTrue = false) (hos : act.option_strings ≠ [])
    (hflag : act.option_strings.getLastD "" = f)
    (hv : values act.dest = some v) (hne : isEmptyVal v = false)
    (hc : (f = "--host" ∧ g = gs.host) ∨ (f = "--user" ∧ g = gs.user)
        ∨ (f = "--password" ∧ g = gs.password) ∨ (f = "--db" ∧ g = gs.db))
    (hg : g ≠ "") :
    ∃ p q r,
      inject (opt_keys (pre ++ act :: post)) gs (build_argv (pre ++ act :: post) values)
        = p ++ f :: pyStr v :: q ++ f :: g :: r := by
  have hseg : argvSegment values act = [f, pyStr v] := by
    rw [argvSegment_value_flag hst hos hv hne, hflag]
  have hbld : build_argv (pre ++ act :: post) values
      = build_argv pre values ++ f :: pyStr v :: build_argv post values := by
    rw [build_argv_append]
    simp [build_argv, hseg]
  have hfopt : f ∈ opt_keys (pre ++ act :: post) := by
    rw [← hflag]
    have hmem : act ∈ pre ++ act :: post := by simp
    have hmaps : act.option_strings ∈ (pre ++ act :: post).map (fun a => a.option_strings) :=
      List.mem_map_of_mem _ hmem
    exact List.mem_flatten.2 ⟨act.option_strings, hmaps, getLastD_mem _ _ hos⟩
  obtain ⟨c1, c2, hcp⟩ := credPairs_split (opt_keys (pre ++ act :: post)) gs f g hc hfopt hg
  obtain ⟨t, ht⟩ := inject_tail (opt_keys (pre ++ act :: post)) gs
    (build_argv (pre ++ act :: post) values)
  refine ⟨build_argv pre values, build_argv post values ++ c1, c2 ++ t, ?_⟩
  rw [ht, hbld, hcp]
  simp [List.append_assoc]

/-- C10 witness: a descriptor declaring `--host`, a form value `formhost`
and global host `globalhost` yield an invocation with the form pair before
the injected pair. -/
theorem C10_witness :
    ∃ p q r, inject (opt_keys [hostAct]) gs10 (build_argv [hostAct] vals10)
      = p ++ "--host" :: "formhost" :: q ++ "--host" :: "globalhost" :: r := by
  have h := C10_injection_after_form [] [] hostAct vals10 gs10 "--host" "globalhost"
    (.str "formhost") rfl (by decide) rfl (by decide) (by decide)
    (Or.inl ⟨rfl, rfl⟩) (by decide)
  simpa [pyStr] using h

end AliReview
